import Mathlib

/-!
Verification development for the ScamShield browser extension
(threat-scoring and warning-escalation pipeline).

JavaScript numbers are modelled as rationals (`ℚ`), epoch timestamps as
integers (`ℤ`), and nullable JS values as `Option`.  Asynchronous code is
modelled by explicit state passing: `chrome.storage.local` becomes an
explicit `Storage` value threaded through the functions that read or write
it, and network I/O (`fetch`) becomes an oracle parameter supplying the
result the network would have produced.  Source file and line references
appear in the doc comments of the individual definitions.
-/

namespace ScamShield

/-! ## Severity tiers (service_worker.js) -/

/-- Severity levels returned by `getSeverity` in service_worker.js. -/
inductive Severity where
  | NONE
  | LOW
  | MEDIUM
  | HIGH
deriving DecidableEq, Repr

/-- The `SEVERITY_THRESHOLDS.LOW` (service_worker.js line 22). -/
def SEVERITY_THRESHOLDS_LOW : ℚ := 3/10

/-- The `SEVERITY_THRESHOLDS.MEDIUM` (service_worker.js line 23). -/
def SEVERITY_THRESHOLDS_MEDIUM : ℚ := 6/10

/-- The `SEVERITY_THRESHOLDS.HIGH` (service_worker.js line 24). -/
def SEVERITY_THRESHOLDS_HIGH : ℚ := 8/10

/-- The `getSeverity` (service_worker.js lines 213-218). -/
def getSeverity (score : ℚ) : Severity :=
  if score ≥ SEVERITY_THRESHOLDS_HIGH then .HIGH
  else if score ≥ SEVERITY_THRESHOLDS_MEDIUM then .MEDIUM
  else if score ≥ SEVERITY_THRESHOLDS_LOW then .LOW
  else .NONE

/-- Numeric rank of a severity tier, used to state monotonicity. -/
def severityRank : Severity → ℕ
  | .NONE => 0
  | .LOW => 1
  | .MEDIUM => 2
  | .HIGH => 3

/-! ## Uniform result shape of the reputation clients and heuristics -/

/-- The dynamic result objects returned by the reputation clients and the
local heuristics, flattened into one record.  Fields a given JS object does
not carry keep their default.  `error` is `none` for the JS `null`. -/
structure ApiResult where
  isPhishing : Bool := false
  isMalicious : Bool := false
  score : Option ℚ := none
  positives : Option ℤ := none
  total : Option ℤ := none
  threats : List String := []
  error : Option String := none
deriving DecidableEq, Repr

/-- JS truthiness of a nullable string (`null` and `""` are falsy). -/
def jsTruthyStr : Option String → Bool
  | none => false
  | some s => s ≠ ""

/-- The `API_WEIGHTS.PHISHTANK` (service_worker.js line 13). -/
def API_WEIGHTS_PHISHTANK : ℚ := 30/100

/-- The `API_WEIGHTS.SAFE_BROWSING` (service_worker.js line 14). -/
def API_WEIGHTS_SAFE_BROWSING : ℚ := 30/100

/-- The `API_WEIGHTS.VIRUSTOTAL` (service_worker.js line 15). -/
def API_WEIGHTS_VIRUSTOTAL : ℚ := 30/100

/-- The `API_WEIGHTS.AI_ENGINE` (service_worker.js line 16), the URL heuristic. -/
def API_WEIGHTS_AI_ENGINE : ℚ := 40/100

/-- The `API_WEIGHTS.NLP_CONTENT` (service_worker.js line 17), the content heuristic. -/
def API_WEIGHTS_NLP_CONTENT : ℚ := 25/100

/-- The `normalizeScore` (service_worker.js lines 186-206): `null` result or a
truthy `error` field force a zero contribution; boolean sources map to 0/1;
ratio sources use `result.score || 0`. -/
def normalizeScore (source : String) (result : Option ApiResult) : ℚ :=
  match result with
  | none => 0
  | some r =>
    if jsTruthyStr r.error then 0
    else if source = "PHISHTANK" then (if r.isPhishing then 1 else 0)
    else if source = "SAFE_BROWSING" then (if r.isMalicious then 1 else 0)
    else if source = "VIRUSTOTAL" then r.score.getD 0
    else if source = "AI_ENGINE" then r.score.getD 0
    else if source = "NLP_CONTENT" then r.score.getD 0
    else 0

/-! ## PhishTank client (phishtankClient.js) -/

/-- The `PHISHTANK_API_KEY` (phishtankClient.js line 3): the hardcoded placeholder. -/
def PHISHTANK_API_KEY : String := "YOUR_PHISHTANK_APP_KEY"

/-- The `checkPhishTank` (phishtankClient.js lines 50-87).  When the key is
configured the REST call is commented out in the source and a fixed stub
result is returned; with the placeholder key the other stub result is
returned.  Either way the function is a constant stub that reports an error. -/
def checkPhishTank (_urlToCheck : String) : ApiResult :=
  if PHISHTANK_API_KEY ≠ "" ∧ PHISHTANK_API_KEY ≠ "YOUR_PHISHTANK_APP_KEY" then
    { isPhishing := false,
      error := some "REST API not fully implemented or key missing." }
  else
    { isPhishing := false,
      error := some "Bulk feed check not implemented / API key missing or placeholder" }

/-! ## VirusTotal client (virusTotalClient.js) -/

/-- The `VIRUSTOTAL_API_KEY` (virusTotalClient.js line 3): the hardcoded literal. -/
def VIRUSTOTAL_API_KEY : String :=
  "19329d70550bfee1690e161333ef4d0ae6d2fb1d4d7180a1847afcf67ceb5c01"

/-- The result `checkVirusTotal` returns when its placeholder guard fires
(virusTotalClient.js line 61). -/
def vtNotConfigured : ApiResult :=
  { isMalicious := false, score := none, positives := none, total := none,
    error := some "API key not configured" }

/-- The `checkVirusTotal` (virusTotalClient.js lines 56-140).  The guard at line
59 compares `VIRUSTOTAL_API_KEY` with the very literal it was assigned.  The
network path (fetchWithBackoff plus response decoding, lines 72-138) is
abstracted as the oracle `net` giving the result that path would produce. -/
def checkVirusTotal (net : ApiResult) (_urlToCheck : String) : ApiResult :=
  if VIRUSTOTAL_API_KEY = "" ∨
      VIRUSTOTAL_API_KEY =
        "19329d70550bfee1690e161333ef4d0ae6d2fb1d4d7180a1847afcf67ceb5c01" then
    vtNotConfigured
  else
    net

/-! ## TTL cache (apiCache.js) -/

/-- The `CACHE_PREFIX` (apiCache.js line 3). -/
def CACHE_PREFIX : String := "api_cache_"

/-- The flat cache key `` `${CACHE_PREFIX}${apiUrlKey}_${itemKey}` `` built by
both cache operations (apiCache.js lines 12 and 44). -/
def mkCacheKey (apiUrlKey itemKey : String) : String :=
  CACHE_PREFIX ++ apiUrlKey ++ "_" ++ itemKey

/-- One cached value in `chrome.storage.local`: the `{ data, expiresAt }`
object stored by `setCachedResponse` (apiCache.js line 47). -/
structure CacheEntry (α : Type) where
  data : α
  expiresAt : ℤ
deriving DecidableEq, Repr

/-- A flat string-keyed view of the cache entries in `chrome.storage.local`. -/
def CacheMap (α : Type) : Type := String → Option (CacheEntry α)

/-- The `getCachedResponse` (apiCache.js lines 11-33): returns the data while
`expiresAt > Date.now()`, otherwise removes the expired entry and returns
`null`; a miss returns `null`.  The second component is the storage after
the lazy eviction. -/
def getCachedResponse {α : Type} (store : CacheMap α) (now : ℤ)
    (apiUrlKey itemKey : String) : Option α × CacheMap α :=
  let cacheKey := mkCacheKey apiUrlKey itemKey
  match store cacheKey with
  | some cachedItem =>
    if cachedItem.expiresAt > now then
      (some cachedItem.data, store)
    else
      (none, fun key => if key = cacheKey then none else store key)
  | none => (none, store)

/-- The `setCachedResponse` (apiCache.js lines 43-52): stores
`{ data, expiresAt := Date.now() + ttlMilliseconds }` under the flat key. -/
def setCachedResponse {α : Type} (store : CacheMap α) (now : ℤ)
    (apiUrlKey itemKey : String) (data : α) (ttlMilliseconds : ℤ) : CacheMap α :=
  let cacheKey := mkCacheKey apiUrlKey itemKey
  fun key => if key = cacheKey then some ⟨data, now + ttlMilliseconds⟩ else store key

/-- The `TTL_PHISHTANK` (apiCache.js line 84). -/
def TTL_PHISHTANK : ℤ := 1 * 60 * 60 * 1000

/-- The `TTL_SAFE_BROWSING` (apiCache.js line 85). -/
def TTL_SAFE_BROWSING : ℤ := 12 * 60 * 60 * 1000

/-- The `TTL_VIRUSTOTAL` (apiCache.js line 86). -/
def TTL_VIRUSTOTAL : ℤ := 24 * 60 * 60 * 1000

/-! ## Shared retry wrapper `fetchWithBackoff`
(phishtankClient.js lines 16-43 and virusTotalClient.js lines 16-44; the two
copies behave identically — the VirusTotal copy only adds a log statement for
status 401 that changes no control flow). -/

/-- The `MAX_RETRIES` (both client files, line 6). -/
def MAX_RETRIES : ℕ := 3

/-- The `INITIAL_BACKOFF_MS` (both client files, line 7). -/
def INITIAL_BACKOFF_MS : ℕ := 1000

/-- The outcome of one `fetch` call: an HTTP response with its status code,
or a network-level failure (the promise rejecting). -/
inductive FetchOutcome where
  | resp (status : ℕ)
  | netErr
deriving DecidableEq, Repr

/-- The `Response.ok` per the Fetch standard: status in the range 200-299. -/
def responseOk (status : ℕ) : Bool := 200 ≤ status && status ≤ 299

deriving instance DecidableEq for Except

/-- What one run of `fetchWithBackoff` does: the final outcome (`Except.error`
models the exception re-thrown after exhausted retries, `Except.ok s` the
response with status `s` handed back to the caller), together with the list
of backoff delays slept, in order. -/
structure BackoffRun where
  outcome : Except Unit ℕ
  delays : List ℕ
deriving DecidableEq, Repr

/-- The `fetchWithBackoff` (phishtankClient.js lines 16-43).  The oracle gives the
outcome of the `fetch` issued at each `retryCount`.  Branch order follows the
source: 5xx with retries left backs off `INITIAL_BACKOFF_MS * 2 ^ retryCount`;
else status 429 with retries left backs off the same delay times 2; any other
response is returned as-is; a network failure retries with the base delay or,
with retries exhausted, re-throws. -/
def fetchWithBackoff (oracle : ℕ → FetchOutcome) (retryCount : ℕ) : BackoffRun :=
  match oracle retryCount with
  | .resp status =>
    if h : ¬responseOk status ∧ 500 ≤ status ∧ retryCount < MAX_RETRIES then
      let delay := INITIAL_BACKOFF_MS * 2 ^ retryCount
      let rest := fetchWithBackoff oracle (retryCount + 1)
      ⟨rest.outcome, delay :: rest.delays⟩
    else if h' : status = 429 ∧ retryCount < MAX_RETRIES then
      let delay := INITIAL_BACKOFF_MS * 2 ^ retryCount * 2
      let rest := fetchWithBackoff oracle (retryCount + 1)
      ⟨rest.outcome, delay :: rest.delays⟩
    else
      ⟨.ok status, []⟩
  | .netErr =>
    if h : retryCount < MAX_RETRIES then
      let delay := INITIAL_BACKOFF_MS * 2 ^ retryCount
      let rest := fetchWithBackoff oracle (retryCount + 1)
      ⟨rest.outcome, delay :: rest.delays⟩
    else
      ⟨.error (), []⟩
termination_by MAX_RETRIES + 1 - retryCount
decreasing_by
  · omega
  · omega
  · omega

/-! ## JS string helpers

The page text handled by the claims is ASCII, and these helpers are faithful
to the JS string methods on ASCII input. -/

/-- The `String.prototype.toLowerCase` (ASCII range). -/
def jsToLower (s : String) : String := ⟨s.data.map Char.toLower⟩

/-- The ASCII whitespace characters `String.prototype.trim` strips. -/
def jsWhitespace (c : Char) : Bool :=
  c = ' ' || c = '\t' || c = '\n' || c = '\r' || c.toNat = 0x0B || c.toNat = 0x0C

/-- The `String.prototype.trim` (strips leading and trailing whitespace). -/
def jsTrim (s : String) : String :=
  ⟨((s.data.dropWhile jsWhitespace).reverse.dropWhile jsWhitespace).reverse⟩

/-- The `String.prototype.startsWith`: prefix test. -/
def jsStartsWith (s pre : String) : Bool := List.isPrefixOf pre.data s.data

/-- The `String.prototype.includes`: substring containment. -/
def jsIncludes (hay needle : String) : Bool :=
  decide (needle.data <:+: hay.data)

/-- The `[...new Set(list)]`: deduplication keeping first occurrences in order. -/
def jsSetDedup {α : Type} [DecidableEq α] (l : List α) : List α :=
  l.foldl (fun acc x => if x ∈ acc then acc else acc ++ [x]) []

/-! ## The NLP regex engine (aiEngine.js lines 179-286)

Every `NLP_PATTERNS` regex has the shape `\b(alt1|alt2|...)\b` with the `i`
and `g` flags, where each alternative is a literal phrase except the single
alternative `congratulations.*prize`.  The engine below implements exactly
this pattern language with JavaScript regex semantics: `\b` is an ASCII word
boundary, alternatives are tried left to right at each start position, `.`
excludes line terminators, `.*` is greedy with backtracking against the
trailing `\b`, and the `g` flag resumes scanning at the end of the previous
match. -/

/-- JS regex word character class `\w` = `[A-Za-z0-9_]`. -/
def isWordChar (c : Char) : Bool := c.isAlphanum || c = '_'

/-- Whether position `i` of `t` holds a word character (out of range: no). -/
def wordAt (t : List Char) (i : ℕ) : Bool :=
  match t[i]? with
  | some c => isWordChar c
  | none => false

/-- JS `\b`: a word boundary holds at position `i` iff exactly one of the
neighbouring characters is a word character. -/
def wordBoundaryAt (t : List Char) (i : ℕ) : Bool :=
  (decide (0 < i) && wordAt t (i - 1)) != wordAt t i

/-- Does the literal `lit` occur in `t` starting at position `i`? -/
def litAt (t : List Char) (i : ℕ) (lit : List Char) : Bool :=
  decide ((t.drop i).take lit.length = lit)

/-- A character JS `.` can match (anything but a line terminator). -/
def jsDotChar (c : Char) : Bool :=
  !(c = '\n' || c = '\r' || c.toNat = 0x2028 || c.toNat = 0x2029)

/-- Can `.*` span the half-open range `[a, b)` of `t`? -/
def dotSpan (t : List Char) (a b : ℕ) : Bool :=
  ((t.drop a).take (b - a)).all jsDotChar

/-- Largest `j ≤ n` with `P j`, the backtracking order of a greedy `.*`. -/
def findGreatest (P : ℕ → Bool) : ℕ → Option ℕ
  | 0 => if P 0 then some 0 else none
  | n + 1 => if P (n + 1) then some (n + 1) else findGreatest P n

/-- One alternative of an `NLP_PATTERNS` regex: a literal phrase, or the
shape `pre.*post` (used only by `congratulations.*prize`). -/
inductive NlpPat where
  | lit (s : String)
  | dotStar (pre post : String)
deriving DecidableEq, Repr

/-- Try one alternative at start position `i`, with the regex's trailing `\b`
included; returns the end position of the whole match on success.  For
`dotStar` the greedy `.*` takes the largest end that lets `post` and the
trailing `\b` succeed without crossing a line terminator. -/
def matchAltAt (t : List Char) (i : ℕ) : NlpPat → Option ℕ
  | .lit s =>
    if litAt t i s.data && wordBoundaryAt t (i + s.data.length) then
      some (i + s.data.length)
    else none
  | .dotStar pre post =>
    if litAt t i pre.data then
      match findGreatest
          (fun j => decide (i + pre.data.length ≤ j) && litAt t j post.data &&
            dotSpan t (i + pre.data.length) j &&
            wordBoundaryAt t (j + post.data.length)) t.length with
      | some j => some (j + post.data.length)
      | none => none
    else none

/-- Try the alternatives in order at position `i`; the first that matches
wins (JS alternation is ordered, not longest-match). -/
def tryAltsAt (t : List Char) (alts : List NlpPat) (i : ℕ) : Option ℕ :=
  match alts with
  | [] => none
  | p :: rest =>
    match matchAltAt t i p with
    | some e => some e
    | none => tryAltsAt t rest i

/-- Worker for `scanFrom`, structurally recursive on a fuel that bounds the
remaining start positions (`t.length + 1 - i` at the top call, so the fuel
never runs out before `i` passes the end of `t`). -/
def scanFromAux (t : List Char) (alts : List NlpPat) : ℕ → ℕ → Option (ℕ × ℕ)
  | 0, _ => none
  | fuel + 1, i =>
    if i ≤ t.length then
      match (if wordBoundaryAt t i then tryAltsAt t alts i else none) with
      | some e => some (i, e)
      | none => scanFromAux t alts fuel (i + 1)
    else none

/-- First match of `\b(alts)\b` starting at or after position `i`:
the `(start, end)` positions of the match. -/
def scanFrom (t : List Char) (alts : List NlpPat) (i : ℕ) : Option (ℕ × ℕ) :=
  scanFromAux t alts (t.length + 1 - i) i

/-- All matches in order, resuming after each match as the `g` flag does
(`max e (s + 1)` mirrors `lastIndex` advancing past a zero-length match).
The fuel is `t.length + 1`, enough for every possible match sequence. -/
def matchAllAux (t : List Char) (alts : List NlpPat) : ℕ → ℕ → List (ℕ × ℕ)
  | _, 0 => []
  | i, fuel + 1 =>
    match scanFrom t alts i with
    | some (s, e) => (s, e) :: matchAllAux t alts (max e (s + 1)) fuel
    | none => []

/-- The `lowerTextContent.matchAll(patternInfo.regex)` (aiEngine.js line 246). -/
def jsMatchAll (t : List Char) (alts : List NlpPat) : List (ℕ × ℕ) :=
  matchAllAux t alts 0 (t.length + 1)

/-- The text of the match `t[s..e)` (JS `match[0]`). -/
def matchText (t : List Char) (s e : ℕ) : String := ⟨(t.drop s).take (e - s)⟩

/-! ## `NLP_PATTERNS` and `analyzePageContentLocally` (aiEngine.js) -/

/-- An ASCII apostrophe, written via its code point. -/
def apos : String := String.singleton (Char.ofNat 39)

/-- The `NLP_PATTERNS` (aiEngine.js lines 179-210): category name, weight, and
the regex alternatives, in object-key order.  The regexes carry the `i` flag,
immaterial here because they are applied to the lowercased text; the
alternatives are transcribed lowercase as in the source. -/
def NLP_PATTERNS : List (String × ℚ × List NlpPat) :=
  [("urgency", 35/100,
    [.lit "urgent!", .lit "act now", .lit "limited time", .lit "immediate action",
     .lit "final notice", .lit "expires soon", .lit ("don" ++ apos ++ "t delay"),
     .lit "last chance", .lit "warning!"]),
   ("prize_winning", 40/100,
    [.lit "you have won", .lit "winner!", .dotStar "congratulations" "prize",
     .lit "claim your reward", .lit "selected as a winner", .lit "guaranteed winner",
     .lit "free gift"]),
   ("account_verification", 40/100,
    [.lit "verify your account", .lit "confirm your details",
     .lit "validate your information", .lit "secure your login",
     .lit "update your credentials", .lit "account locked", .lit "suspicious login",
     .lit "unusual activity detected", .lit "account security",
     .lit "login attempt failed"]),
   ("authority_impersonation", 25/100,
    [.lit "official notice", .lit "government warning", .lit "tax refund",
     .lit "legal action", .lit "court summons", .lit "law enforcement",
     .lit "bank security team", .lit "customer support", .lit "technical support"]),
   ("scare_tactics", 30/100,
    [.lit "account suspended", .lit "security alert", .lit "system compromised",
     .lit "virus detected", .lit "malware found", .lit "immediate threat",
     .lit "data breach"]),
   ("investment_scams", 20/100,
    [.lit "guaranteed profit", .lit "high return", .lit "risk-free investment",
     .lit "double your money", .lit "get rich quick", .lit "investment opportunity",
     .lit "exclusive offer"])]

/-- The `NLP_SCORE_CAP_PER_CATEGORY` (aiEngine.js line 212). -/
def NLP_SCORE_CAP_PER_CATEGORY : ℚ := 1/2

/-- The `MAX_MATCHES_PER_CATEGORY_TO_CONSIDER` (aiEngine.js line 213). -/
def MAX_MATCHES_PER_CATEGORY_TO_CONSIDER : ℕ := 5

/-- One entry of `nlpDetails.matchedCategories` (aiEngine.js lines 261-266). -/
structure NlpCategoryMatch where
  count : ℕ
  keywords : List String
  categoryScore : ℚ
  weightedScore : ℚ
deriving DecidableEq, Repr

/-- The `details` object of the NLP analysis result. -/
structure NlpDetails where
  matchedCategories : List (String × NlpCategoryMatch) := []
  totalMatches : ℕ := 0
  reason : Option String := none
deriving DecidableEq, Repr

/-- The `{ score, details, error }` object `analyzePageContentLocally` returns. -/
structure NlpResult where
  score : ℚ
  details : NlpDetails
  error : Option String := none
deriving DecidableEq, Repr

/-- The per-category body of the `for (const category in NLP_PATTERNS)` loop
(aiEngine.js lines 241-269), folded over the accumulated
`(nlpScore, matchedCategories, totalMatches)`.  The loop counts at most
`MAX_MATCHES_PER_CATEGORY_TO_CONSIDER` matches (it breaks once the counter
reaches it, so exactly the first five matches are counted and pushed). -/
def nlpCategoryStep (lower : List Char)
    (acc : ℚ × List (String × NlpCategoryMatch) × ℕ)
    (cat : String × ℚ × List NlpPat) : ℚ × List (String × NlpCategoryMatch) × ℕ :=
  let (nlpScore, cats, totalMatches) := acc
  let ms := (jsMatchAll lower cat.2.2).take MAX_MATCHES_PER_CATEGORY_TO_CONSIDER
  let matchesFoundThisCategory := ms.length
  if matchesFoundThisCategory > 0 then
    let categoryScore :=
      min ((matchesFoundThisCategory : ℚ) * (15/100)) NLP_SCORE_CAP_PER_CATEGORY
    let keywords :=
      jsSetDedup (ms.map (fun se => jsTrim (matchText lower se.1 se.2)))
    (nlpScore + categoryScore * cat.2.1,
     cats ++ [(cat.1,
       { count := matchesFoundThisCategory, keywords := keywords,
         categoryScore := categoryScore,
         weightedScore := categoryScore * cat.2.1 })],
     totalMatches + matchesFoundThisCategory)
  else
    acc

/-- The `analyzePageContentLocally` (aiEngine.js lines 220-286): guard for
missing or short text (under 100 characters after trimming), then the
per-category pattern scan over the lowercased text, and the final score
capped at 1. -/
def analyzePageContentLocally (textContent : String) : NlpResult :=
  if textContent = "" || (jsTrim textContent).length < 100 then
    { score := 0, details := { reason := some "Insufficient text" }, error := none }
  else
    let lower := (jsToLower textContent).data
    let acc := NLP_PATTERNS.foldl (nlpCategoryStep lower) (0, [], 0)
    { score := min acc.1 1,
      details := { matchedCategories := acc.2.1, totalMatches := acc.2.2 },
      error := none }

/-! ## The aggregator `checkUrlThreats` (service_worker.js lines 226-394) -/

/-- The slice of `chrome.storage.local` the threat pipeline touches: the
`api_cache_*` entries and the stored blacklist `scamShieldBlacklist`. -/
structure Storage where
  cache : CacheMap ApiResult
  scamShieldBlacklist : List String

/-- Oracles for the parts of a pass that are outside the aggregator itself:
the URL heuristic result (`aiEngine.analyzeUrlLocally(url)`, whose WHATWG URL
parsing is not re-modelled here), the Safe Browsing client result
(`safeBrowsingClient.checkGoogleSafeBrowsing(url)`, whose module is not part
of the sources at hand), and the VirusTotal network path (see
`checkVirusTotal`). -/
structure ClientOracles where
  aiResult : ApiResult
  safeBrowsingResult : ApiResult
  virusTotalNet : ApiResult

/-- The `threatDetails` object a completed pass produces (service_worker.js
lines 345-352), with the `sources` map flattened into one field per source. -/
structure ThreatDetails where
  url : String
  unifiedScore : ℚ
  severity : Severity
  anySourceReportedThreat : Bool
  aiEngineResult : ApiResult
  phishtankResult : ApiResult
  safeBrowsingResult : ApiResult
  virusTotalResult : ApiResult
  nlpContentResult : ApiResult
deriving DecidableEq, Repr

/-- The `sources.nlpContent` placeholder recorded when no page text was
provided (service_worker.js line 335). -/
def nlpNotRun : ApiResult :=
  { score := some 0, error := some "Not run / no content provided" }

/-- The cache-check-then-client block `checkUrlThreats` repeats verbatim for
each of PhishTank (lines 256-266), Safe Browsing (lines 278-288) and
VirusTotal (lines 300-310): on a cache hit the cached result is used; on a
miss the client result (`client`) is used and, when it carries no truthy
error, stored with the source TTL.  Returns the result used and the cache
after the lazy eviction and the possible write. -/
def cachedFetch (cache : CacheMap ApiResult) (now : ℤ) (srcKey url : String)
    (client : ApiResult) (ttl : ℤ) : ApiResult × CacheMap ApiResult :=
  match getCachedResponse cache now srcKey url with
  | (some r, c) => (r, c)
  | (none, c) =>
    (client,
     if jsTruthyStr client.error then c
     else setCachedResponse c now srcKey url client ttl)

/-- The `checkUrlThreats` (service_worker.js lines 226-394).  Inactive extension
or a non-HTTP(S) URL returns without producing details.  Otherwise the five
sources are evaluated in source order — URL heuristic, PhishTank, Safe
Browsing, VirusTotal (each API cache-checked first, client-invoked on miss,
cache-populated on an error-free client result), NLP content analysis when
page text is truthy — accumulating `unifiedScore` with the fixed
`API_WEIGHTS` and then clamping it to [0, 1] (lines 340-342).  The function
never reads `scamShieldBlacklist`.  Returns the produced details and the
updated storage. -/
def checkUrlThreats (isExtensionCurrentlyActive : Bool) (oracles : ClientOracles)
    (storage : Storage) (now : ℤ) (url : String) (textContent : Option String) :
    Option ThreatDetails × Storage :=
  if !isExtensionCurrentlyActive then (none, storage)
  else if !(jsStartsWith url "http://" || jsStartsWith url "https://") then
    (none, storage)
  else
    let aiAnalysisResult := oracles.aiResult
    let aiScore := aiAnalysisResult.score.getD 0
    let u1 := 0 + aiScore * API_WEIGHTS_AI_ENGINE
    let (phishTankResult, cache2) :=
      cachedFetch storage.cache now "phishtank" url (checkPhishTank url) TTL_PHISHTANK
    let phishTankScore := normalizeScore "PHISHTANK" (some phishTankResult)
    let u2 := u1 + phishTankScore * API_WEIGHTS_PHISHTANK
    let (safeBrowsingResult, cache3) :=
      cachedFetch cache2 now "safebrowsing" url oracles.safeBrowsingResult
        TTL_SAFE_BROWSING
    let safeBrowsingScore := normalizeScore "SAFE_BROWSING" (some safeBrowsingResult)
    let u3 := u2 + safeBrowsingScore * API_WEIGHTS_SAFE_BROWSING
    let (virusTotalResult, cache4) :=
      cachedFetch cache3 now "virustotal" url
        (checkVirusTotal oracles.virusTotalNet url) TTL_VIRUSTOTAL
    let virusTotalScore := normalizeScore "VIRUSTOTAL" (some virusTotalResult)
    let u4 := u3 + virusTotalScore * API_WEIGHTS_VIRUSTOTAL
    let (nlpContentResult, nlpScore) :=
      if jsTruthyStr textContent then
        let n := analyzePageContentLocally (textContent.getD "")
        let asApi : ApiResult := { score := some n.score, error := n.error }
        (asApi, normalizeScore "NLP_CONTENT" (some asApi))
      else (nlpNotRun, 0)
    let u5 := if jsTruthyStr textContent
      then u4 + nlpScore * API_WEIGHTS_NLP_CONTENT else u4
    let unifiedScore := max (min u5 1) 0
    let severity := getSeverity unifiedScore
    let anySourceReportedThreat :=
      decide (aiScore > 0) || decide (phishTankScore > 0) ||
      decide (safeBrowsingScore > 0) || decide (virusTotalScore > 0) ||
      (jsTruthyStr textContent && decide (nlpScore > 0))
    (some { url := url, unifiedScore := unifiedScore, severity := severity,
            anySourceReportedThreat := anySourceReportedThreat,
            aiEngineResult := aiAnalysisResult,
            phishtankResult := phishTankResult,
            safeBrowsingResult := safeBrowsingResult,
            virusTotalResult := virusTotalResult,
            nlpContentResult := nlpContentResult },
     { storage with cache := cache4 })

/-- The condition under which a completed pass sends `SHOW_WARNING_BANNER`
to the page (and switches the icon to the warning variant),
service_worker.js line 360. -/
def sendsWarningBanner (d : ThreatDetails) : Bool :=
  d.anySourceReportedThreat || decide (d.severity ≠ .NONE)

/-! ## The warning presenter (content_script.js)

The per-page warning UI is a single slot: `currentWarningUI` holds the active
warning overlay or `null`.  Here the slot is `Option WarningLevel`, recording
which visual level is showing; `none` is the HIDDEN state. -/

/-- The visual levels of `displayGraduatedWarning`. -/
inductive WarningLevel where
  | red
  | orange
  | yellow
deriving DecidableEq, Repr

/-- The `displayGraduatedWarning` (content_script.js lines 150-207): removes any
existing warning and installs the new one — the slot always ends holding the
new level. -/
def displayGraduatedWarning (level : WarningLevel) (_st : Option WarningLevel) :
    Option WarningLevel :=
  some level

/-- The `displayWarningBanner` (content_script.js lines 307-320): returns early
if a graduated warning element already exists, otherwise displays the red
blacklist warning. -/
def displayWarningBanner (st : Option WarningLevel) : Option WarningLevel :=
  if st.isSome then st else displayGraduatedWarning .red st

/-- The `checkBlacklist` (content_script.js lines 126-139): exact membership test
of the page hostname in the stored `scamShieldBlacklist`; on a hit the red
warning is displayed. -/
def checkBlacklist (blacklist : List String) (currentHostname : String)
    (st : Option WarningLevel) : Option WarningLevel :=
  if currentHostname ∈ blacklist then displayWarningBanner st else st

/-- The combined keyword list `[...new Set([...default, ...custom])]` built
by the scanners (content_script.js lines 336-338). -/
def combinedKeywords (defaultKeywords customKeywords : List String) : List String :=
  jsSetDedup (defaultKeywords ++ customKeywords)

/-- The `find` predicate of the scanners (content_script.js lines 343-349):
a non-blank keyword whose lowercase form occurs in the text. -/
def keywordFoundIn (text : String) (keyword : String) : Bool :=
  jsTrim keyword ≠ "" && jsIncludes text (jsToLower keyword)

/-- The `scanPageContentForKeywords` (content_script.js lines 331-367): skipped
entirely while the extension is inactive or a warning is showing; otherwise a
first matching keyword in the lowercased body text yields a yellow warning.
Returns the new slot state and whether a warning was shown. -/
def scanPageContentForKeywords (extensionIsActive : Bool)
    (defaultKeywords customKeywords : List String) (bodyText : String)
    (st : Option WarningLevel) : Option WarningLevel × Bool :=
  if !extensionIsActive || st.isSome then (st, false)
  else
    let keywords := combinedKeywords defaultKeywords customKeywords
    if keywords.isEmpty then (st, false)
    else
      match keywords.find? (fun k => keywordFoundIn (jsToLower bodyText) k) with
      | some _ => (displayGraduatedWarning .yellow st, true)
      | none => (st, false)

/-- The `linkScannerClickListener` (content_script.js lines 378-430) for a click
on a link with a truthy non-`javascript:` href: skipped while inactive or a
warning is showing; otherwise a keyword found in the lowercased
`href + " " + linkText` blocks the navigation and shows a yellow warning. -/
def linkScannerClickListener (extensionIsActive : Bool)
    (defaultKeywords customKeywords : List String) (href linkText : String)
    (st : Option WarningLevel) : Option WarningLevel :=
  if !extensionIsActive || st.isSome then st
  else if href = "" || jsStartsWith href "javascript:" then st
  else
    let keywords := combinedKeywords defaultKeywords customKeywords
    if keywords.isEmpty then st
    else
      let combinedText := jsToLower href ++ " " ++ jsToLower linkText
      match keywords.find? (fun k => keywordFoundIn combinedText k) with
      | some _ => displayGraduatedWarning .yellow st
      | none => st

/-- The level the `SHOW_WARNING_BANNER` handler picks (content_script.js
lines 60-70): red for HIGH, orange for MEDIUM, otherwise yellow (including
the severity-NONE-with-reported-threat case, which keeps yellow). -/
def bannerLevel (severity : Severity) : WarningLevel :=
  if severity = .HIGH then .red
  else if severity = .MEDIUM then .orange
  else .yellow

/-- The `SHOW_WARNING_BANNER` message handler (content_script.js lines
52-119), reduced to its effect on the warning slot: inactive extension
ignores the message; severity NONE with no source reporting a threat returns
without displaying (lines 102-107); anything else displays the graduated
warning at `bannerLevel`, replacing any current one. -/
def handleShowWarningBanner (extensionIsActive : Bool) (severity : Severity)
    (anySourceReportedThreat : Bool) (st : Option WarningLevel) :
    Option WarningLevel :=
  if !extensionIsActive then st
  else if severity = .NONE ∧ anySourceReportedThreat = false then st
  else displayGraduatedWarning (bannerLevel severity) st

/-! ## Blacklist management (popup/blacklist_manager.js) -/

/-- The user-visible outcome of `addUrlToBlacklist`. -/
inductive BlacklistAddMsg where
  | invalidInput
  | added (hostname : String)
  | alreadyExists (hostname : String)
deriving DecidableEq, Repr

/-- The `addUrlToBlacklist` (blacklist_manager.js lines 106-129), parameterised
by the result of `parseHostname(urlToAdd)` (whose WHATWG URL parsing is not
re-modelled; `none` is its `null`).  A hostname not yet present is appended
and saved; one already present leaves the stored list untouched and reports
that it is already in the blacklist. -/
def addUrlToBlacklist (parsedHostname : Option String)
    (currentBlacklist : List String) : List String × BlacklistAddMsg :=
  match parsedHostname with
  | none => (currentBlacklist, .invalidInput)
  | some hostname =>
    if hostname ∉ currentBlacklist then
      (currentBlacklist ++ [hostname], .added hostname)
    else
      (currentBlacklist, .alreadyExists hostname)

/-! ## Claim theorems -/

/-- C3: for every unified score s in [0,1], the severity tier is HIGH iff
s ≥ 0.8, MEDIUM iff 0.6 ≤ s < 0.8, LOW iff 0.3 ≤ s < 0.6, NONE iff s < 0.3
(each boundary inclusive at its lower bound), and the mapping is a
deterministic, monotonic function of s. -/
theorem getSeverity_tiers (s : ℚ) (h0 : 0 ≤ s) (h1 : s ≤ 1) :
    (getSeverity s = .HIGH ↔ 8/10 ≤ s) ∧
    (getSeverity s = .MEDIUM ↔ 6/10 ≤ s ∧ s < 8/10) ∧
    (getSeverity s = .LOW ↔ 3/10 ≤ s ∧ s < 6/10) ∧
    (getSeverity s = .NONE ↔ s < 3/10) ∧
    (∀ t : ℚ, s ≤ t → severityRank (getSeverity s) ≤ severityRank (getSeverity t)) := by
  unfold getSeverity SEVERITY_THRESHOLDS_HIGH SEVERITY_THRESHOLDS_MEDIUM
    SEVERITY_THRESHOLDS_LOW
  refine ⟨?_, ?_, ?_, ?_, ?_⟩
  · split_ifs <;> simp <;> linarith
  · split_ifs <;> simp
    all_goals first
      | (constructor <;> linarith)
      | (intro _; linarith)
  · split_ifs <;> simp
    all_goals first
      | (constructor <;> linarith)
      | (intro _; linarith)
  · split_ifs <;> simp <;> linarith
  · intro t ht
    split_ifs <;> simp [severityRank] <;> linarith

/-- Witness for `getSeverity_tiers` at s = 0.7. -/
theorem getSeverity_tiers_witness : getSeverity (7/10) = .MEDIUM :=
  ((getSeverity_tiers (7/10) (by norm_num) (by norm_num)).2.1).mpr (by norm_num)

/-- C9: re-adding a hostname already in the stored blacklist leaves the list
unchanged (no duplicate is appended) and reports that it is already in the
blacklist rather than erroring. -/
theorem addUrlToBlacklist_idempotent (L : List String) (input : Option String)
    (h : String) (hparse : input = some h) (hmem : h ∈ L) :
    addUrlToBlacklist input L = (L, .alreadyExists h) := by
  subst hparse
  simp [addUrlToBlacklist, hmem]

/-- Witness for `addUrlToBlacklist_idempotent`. -/
theorem addUrlToBlacklist_idempotent_witness :
    addUrlToBlacklist (some "evil.example") ["a.example", "evil.example"] =
      (["a.example", "evil.example"], .alreadyExists "evil.example") :=
  addUrlToBlacklist_idempotent ["a.example", "evil.example"] _ "evil.example" rfl
    (by simp)

/-- C7: while a warning is showing, the page-content keyword scan and the
per-click link scan are skipped entirely: they neither replace nor dismiss
the active warning, whatever their inputs would have matched. -/
theorem showing_blocks_local_scans (l : WarningLevel) (extensionIsActive : Bool)
    (defaultKeywords customKeywords : List String) (bodyText href linkText : String)
    (st : Option WarningLevel) (h : st = some l) :
    scanPageContentForKeywords extensionIsActive defaultKeywords customKeywords
        bodyText st = (st, false) ∧
    linkScannerClickListener extensionIsActive defaultKeywords customKeywords
        href linkText st = st := by
  subst h
  exact ⟨by simp [scanPageContentForKeywords], by simp [linkScannerClickListener]⟩

/-- Witness for `showing_blocks_local_scans`: SHOWING(red) stays SHOWING(red)
when a low-severity local content keyword match occurs. -/
theorem showing_blocks_local_scans_witness :
    scanPageContentForKeywords true ["urgent"] [] "this is urgent business"
        (some .red) = (some .red, false) ∧
    linkScannerClickListener true ["urgent"] [] "https://x.example/urgent" "urgent"
        (some .red) = some .red :=
  showing_blocks_local_scans .red true ["urgent"] [] "this is urgent business"
    "https://x.example/urgent" "urgent" (some .red) rfl

/-- C5: after `setCachedResponse` with a TTL, `getCachedResponse` returns the
stored data strictly before the TTL elapses and absent strictly after
(lazily removing the expired entry); an entry is never returned at or past
its stored `expiresAt`; a key never set yields absent. -/
theorem cache_ttl_roundtrip {α : Type} (store : CacheMap α) (src item : String)
    (d : α) (ttl t0 t1 : ℤ) :
    (t1 < t0 + ttl →
      (getCachedResponse (setCachedResponse store t0 src item d ttl) t1 src item).1
        = some d) ∧
    (t0 + ttl < t1 →
      (getCachedResponse (setCachedResponse store t0 src item d ttl) t1 src item).1
          = none ∧
        (getCachedResponse (setCachedResponse store t0 src item d ttl) t1 src item).2
          (mkCacheKey src item) = none) ∧
    (∀ e : CacheEntry α, store (mkCacheKey src item) = some e → e.expiresAt ≤ t1 →
      (getCachedResponse store t1 src item).1 = none) ∧
    (store (mkCacheKey src item) = none →
      (getCachedResponse store t1 src item).1 = none) := by
  refine ⟨fun hlt => ?_, fun hgt => ⟨?_, ?_⟩, fun e he hexp => ?_, fun hnone => ?_⟩
  · have hfresh : t0 + ttl > t1 := by omega
    simp [getCachedResponse, setCachedResponse, hfresh]
  · have hstale : ¬t0 + ttl > t1 := by omega
    simp [getCachedResponse, setCachedResponse, hstale]
  · have hstale : ¬t0 + ttl > t1 := by omega
    simp [getCachedResponse, setCachedResponse, hstale]
  · have hpast : ¬e.expiresAt > t1 := by omega
    simp [getCachedResponse, he, hpast]
  · simp [getCachedResponse, hnone]

/-- Witness for `cache_ttl_roundtrip`: a set at time 0 with TTL 1000 is
returned at time 500 and absent at time 2000. -/
theorem cache_ttl_roundtrip_witness :
    (getCachedResponse
      (setCachedResponse (fun _ => (none : Option (CacheEntry ℕ))) 0 "phishtank"
        "https://a.example/" 7 1000) 500 "phishtank" "https://a.example/").1
      = some 7 ∧
    (getCachedResponse
      (setCachedResponse (fun _ => (none : Option (CacheEntry ℕ))) 0 "phishtank"
        "https://a.example/" 7 1000) 2000 "phishtank" "https://a.example/").1
      = none :=
  ⟨(cache_ttl_roundtrip (fun _ => none) "phishtank" "https://a.example/" 7 1000 0
      500).1 (by norm_num),
   ((cache_ttl_roundtrip (fun _ => none) "phishtank" "https://a.example/" 7 1000 0
      2000).2.1 (by norm_num)).1⟩

/-- Unfolding step of `fetchWithBackoff`: a 5xx response with retries left
backs off `INITIAL_BACKOFF_MS * 2 ^ retryCount` and recurses. -/
lemma fwb_step_5xx (oracle : ℕ → FetchOutcome) (rc status : ℕ)
    (hor : oracle rc = .resp status) (hok : ¬responseOk status = true)
    (h5 : 500 ≤ status) (hrc : rc < MAX_RETRIES) :
    fetchWithBackoff oracle rc =
      ⟨(fetchWithBackoff oracle (rc + 1)).outcome,
       INITIAL_BACKOFF_MS * 2 ^ rc :: (fetchWithBackoff oracle (rc + 1)).delays⟩ := by
  conv_lhs => rw [fetchWithBackoff.eq_def]
  simp [hor, hok, h5, hrc]

/-- Unfolding step of `fetchWithBackoff`: a 429 response with retries left
backs off twice the 5xx delay and recurses. -/
lemma fwb_step_429 (oracle : ℕ → FetchOutcome) (rc : ℕ)
    (hor : oracle rc = .resp 429) (hrc : rc < MAX_RETRIES) :
    fetchWithBackoff oracle rc =
      ⟨(fetchWithBackoff oracle (rc + 1)).outcome,
       INITIAL_BACKOFF_MS * 2 ^ rc * 2 :: (fetchWithBackoff oracle (rc + 1)).delays⟩ := by
  conv_lhs => rw [fetchWithBackoff.eq_def]
  simp [hor, hrc, responseOk]

/-- Unfolding step of `fetchWithBackoff`: any response matching neither retry
branch is returned as-is, with no further delay. -/
lemma fwb_step_return (oracle : ℕ → FetchOutcome) (rc status : ℕ)
    (hor : oracle rc = .resp status)
    (h1 : ¬(¬responseOk status = true ∧ 500 ≤ status ∧ rc < MAX_RETRIES))
    (h2 : ¬(status = 429 ∧ rc < MAX_RETRIES)) :
    fetchWithBackoff oracle rc = ⟨.ok status, []⟩ := by
  conv_lhs => rw [fetchWithBackoff.eq_def]
  simp only [hor]
  rw [dif_neg h1, dif_neg h2]

/-- Unfolding step of `fetchWithBackoff`: a network failure with retries left
backs off the base delay and recurses. -/
lemma fwb_step_neterr_retry (oracle : ℕ → FetchOutcome) (rc : ℕ)
    (hor : oracle rc = .netErr) (hrc : rc < MAX_RETRIES) :
    fetchWithBackoff oracle rc =
      ⟨(fetchWithBackoff oracle (rc + 1)).outcome,
       INITIAL_BACKOFF_MS * 2 ^ rc :: (fetchWithBackoff oracle (rc + 1)).delays⟩ := by
  conv_lhs => rw [fetchWithBackoff.eq_def]
  simp [hor, hrc]

/-- Unfolding step of `fetchWithBackoff`: a network failure with retries
exhausted re-throws. -/
lemma fwb_step_neterr_throw (oracle : ℕ → FetchOutcome) (rc : ℕ)
    (hor : oracle rc = .netErr) (hrc : ¬rc < MAX_RETRIES) :
    fetchWithBackoff oracle rc = ⟨.error (), []⟩ := by
  conv_lhs => rw [fetchWithBackoff.eq_def]
  simp [hor, hrc]

/-- The number of backoff delays of a run starting at `rc` is at most
`MAX_RETRIES - rc`, whatever the fetch outcomes. -/
lemma fwb_delays_le : ∀ (n rc : ℕ), MAX_RETRIES ≤ rc + n →
    ∀ oracle : ℕ → FetchOutcome,
    (fetchWithBackoff oracle rc).delays.length ≤ MAX_RETRIES - rc := by
  intro n
  induction n with
  | zero =>
    intro rc hrc oracle
    match hor : oracle rc with
    | .resp status =>
      rw [fwb_step_return oracle rc status hor (by omega) (by omega)]
      simp
    | .netErr =>
      rw [fwb_step_neterr_throw oracle rc hor (by omega)]
      simp
  | succ n ih =>
    intro rc hrc oracle
    match hor : oracle rc with
    | .resp status =>
      by_cases hc1 : ¬responseOk status = true ∧ 500 ≤ status ∧ rc < MAX_RETRIES
      · rw [fwb_step_5xx oracle rc status hor hc1.1 hc1.2.1 hc1.2.2]
        have := ih (rc + 1) (by omega) oracle
        simp only [List.length_cons]
        omega
      · by_cases hc2 : status = 429 ∧ rc < MAX_RETRIES
        · rw [hc2.1] at hor
          rw [fwb_step_429 oracle rc hor hc2.2]
          have := ih (rc + 1) (by omega) oracle
          simp only [List.length_cons]
          omega
        · rw [fwb_step_return oracle rc status hor hc1 hc2]
          simp
    | .netErr =>
      by_cases hc : rc < MAX_RETRIES
      · rw [fwb_step_neterr_retry oracle rc hor hc]
        have := ih (rc + 1) (by omega) oracle
        simp only [List.length_cons]
        omega
      · rw [fwb_step_neterr_throw oracle rc hor hc]
        simp

/-- C4: through `fetchWithBackoff`, a persistent 5xx is retried exactly
`MAX_RETRIES = 3` extra times with delays `INITIAL_BACKOFF_MS * 2 ^ k`; a
persistent 429 likewise with an extra factor of 2 on each delay; a
persistent network failure likewise with the base delays, and then
re-throws; any other non-OK 4xx response is returned immediately with no
retry; and no run ever sleeps more than `MAX_RETRIES` times. -/
theorem fetchWithBackoff_retry_policy :
    (∀ status : ℕ, 500 ≤ status →
      fetchWithBackoff (fun _ => .resp status) 0 =
        ⟨.ok status, [1000, 2000, 4000]⟩) ∧
    (fetchWithBackoff (fun _ => .resp 429) 0 =
        ⟨.ok 429, [2000, 4000, 8000]⟩) ∧
    (fetchWithBackoff (fun _ => .netErr) 0 =
        ⟨.error (), [1000, 2000, 4000]⟩) ∧
    (∀ (oracle : ℕ → FetchOutcome) (status : ℕ), oracle 0 = .resp status →
      400 ≤ status → status < 500 → status ≠ 429 →
      fetchWithBackoff oracle 0 = ⟨.ok status, []⟩) ∧
    (∀ oracle : ℕ → FetchOutcome,
      (fetchWithBackoff oracle 0).delays.length ≤ MAX_RETRIES) := by
  refine ⟨?_, ?_, ?_, ?_, ?_⟩
  · intro status h5
    have hok : ¬responseOk status = true := by simp [responseOk]; omega
    rw [fwb_step_5xx _ 0 status rfl hok h5 (by norm_num [MAX_RETRIES])]
    rw [fwb_step_5xx _ 1 status rfl hok h5 (by norm_num [MAX_RETRIES])]
    rw [fwb_step_5xx _ 2 status rfl hok h5 (by norm_num [MAX_RETRIES])]
    rw [fwb_step_return _ 3 status rfl (by norm_num [MAX_RETRIES])
      (by norm_num [MAX_RETRIES])]
    norm_num [INITIAL_BACKOFF_MS]
  · rw [fwb_step_429 _ 0 rfl (by norm_num [MAX_RETRIES])]
    rw [fwb_step_429 _ 1 rfl (by norm_num [MAX_RETRIES])]
    rw [fwb_step_429 _ 2 rfl (by norm_num [MAX_RETRIES])]
    rw [fwb_step_return _ 3 429 rfl (by norm_num [MAX_RETRIES, responseOk])
      (by norm_num [MAX_RETRIES])]
    norm_num [INITIAL_BACKOFF_MS]
  · rw [fwb_step_neterr_retry _ 0 rfl (by norm_num [MAX_RETRIES])]
    rw [fwb_step_neterr_retry _ 1 rfl (by norm_num [MAX_RETRIES])]
    rw [fwb_step_neterr_retry _ 2 rfl (by norm_num [MAX_RETRIES])]
    rw [fwb_step_neterr_throw _ 3 rfl (by norm_num [MAX_RETRIES])]
    norm_num [INITIAL_BACKOFF_MS]
  · intro oracle status hor h4 h5 h429
    exact fwb_step_return oracle 0 status hor
      (by rintro ⟨-, h5', -⟩; omega) (by rintro ⟨rfl, -⟩; exact h429 rfl)
  · intro oracle
    simpa using fwb_delays_le MAX_RETRIES 0 (by omega) oracle

/-- Witness for `fetchWithBackoff_retry_policy`: a persistent 503 is retried
three times; a 404 is returned with no retry. -/
theorem fetchWithBackoff_retry_policy_witness :
    fetchWithBackoff (fun _ => .resp 503) 0 = ⟨.ok 503, [1000, 2000, 4000]⟩ ∧
    fetchWithBackoff (fun _ => .resp 404) 0 = ⟨.ok 404, []⟩ :=
  ⟨fetchWithBackoff_retry_policy.1 503 (by norm_num),
   fetchWithBackoff_retry_policy.2.2.2.1 (fun _ => .resp 404) 404 rfl (by norm_num)
     (by norm_num) (by norm_num)⟩

/-- The spec formula `clamp(x, 0, 1)`. -/
def clamp01 (x : ℚ) : ℚ := max (min x 1) 0

/-- Client oracles reporting everything clean: zero URL-heuristic score, a
clean Safe Browsing verdict, defaults elsewhere. -/
def cleanOracles : ClientOracles :=
  { aiResult := { score := some 0 }, safeBrowsingResult := {}, virusTotalNet := {} }

/-- Storage whose blacklist contains `evil.example` and whose cache is empty. -/
def evilBlacklistedStorage : Storage :=
  { cache := fun _ => none, scamShieldBlacklist := ["evil.example"] }

unseal Rat.mul Rat.add Rat.inv Rat.sub in
/-- C1 counterexample: with `evil.example` in the stored blacklist and every
source clean, `checkUrlThreats` on `https://evil.example/path` produces an
assessment with severity NONE, not HIGH — the aggregator never consults the
blacklist. -/
theorem blacklisted_severity_counterexample :
    "evil.example" ∈ evilBlacklistedStorage.scamShieldBlacklist ∧
    ((checkUrlThreats true cleanOracles evilBlacklistedStorage 0
        "https://evil.example/path" none).1.map ThreatDetails.severity)
      = some .NONE := by
  decide

/-- C1 (amended): a hostname in the stored blacklist always triggers the
content script's red warning through `checkBlacklist`, regardless of any
scores, while `checkUrlThreats` itself never reads the stored blacklist —
its produced assessment is identical under any two blacklists. -/
theorem blacklist_red_warning_not_assessment :
    (∀ (blacklist : List String) (hostname : String), hostname ∈ blacklist →
      checkBlacklist blacklist hostname none = some .red) ∧
    (∀ (active : Bool) (oracles : ClientOracles) (cache : CacheMap ApiResult)
        (bl1 bl2 : List String) (now : ℤ) (url : String) (text : Option String),
      (checkUrlThreats active oracles ⟨cache, bl1⟩ now url text).1 =
        (checkUrlThreats active oracles ⟨cache, bl2⟩ now url text).1) := by
  constructor
  · intro blacklist hostname hmem
    simp [checkBlacklist, displayWarningBanner, displayGraduatedWarning, hmem]
  · intro active oracles cache bl1 bl2 now url text
    simp only [checkUrlThreats]
    split
    · rfl
    split
    · rfl
    rfl

/-- Witness for `blacklist_red_warning_not_assessment`. -/
theorem blacklist_red_warning_not_assessment_witness :
    checkBlacklist ["evil.example"] "evil.example" none = some .red :=
  blacklist_red_warning_not_assessment.1 ["evil.example"] "evil.example" (by simp)

/-- Clean storage: empty cache, empty blacklist. -/
def emptyStorage : Storage := { cache := fun _ => none, scamShieldBlacklist := [] }

/-- Oracles where only the URL heuristic reports a small signal (0.1). -/
def weakSignalOracles : ClientOracles :=
  { aiResult := { score := some (1/10) }, safeBrowsingResult := {}, virusTotalNet := {} }

unseal Rat.mul Rat.add Rat.inv Rat.sub in
/-- C6 counterexample: a completed pass can produce severity NONE with
`anySourceReportedThreat = true`; such an assessment is delivered
(`sendsWarningBanner`), and the handler displays a yellow banner from the
HIDDEN state — so a delivered severity-NONE assessment with no direct
suspicious-link/content event does show a warning banner. -/
theorem severity_none_banner_counterexample :
    ((checkUrlThreats true weakSignalOracles emptyStorage 0 "https://site.example/"
        none).1.map (fun d => (d.severity, sendsWarningBanner d)))
      = some (.NONE, true) ∧
    handleShowWarningBanner true .NONE true none = some .yellow := by
  decide

/-- C6 (amended): the banner handler leaves the state unchanged exactly when
the assessment is non-qualifying; qualifying now means severity ≠ NONE or
`anySourceReportedThreat` — on such an assessment the HIDDEN state moves to
SHOWING(`bannerLevel severity`), and on severity NONE with no source
reporting a threat nothing is ever displayed. -/
theorem banner_transitions_qualifying :
    (∀ (severity : Severity) (anySrc : Bool) (st : Option WarningLevel),
      handleShowWarningBanner true severity anySrc st ≠ st →
        severity ≠ .NONE ∨ anySrc = true) ∧
    (∀ (active : Bool) (st : Option WarningLevel),
      handleShowWarningBanner active .NONE false st = st) ∧
    (∀ (severity : Severity) (anySrc : Bool), severity ≠ .NONE ∨ anySrc = true →
      handleShowWarningBanner true severity anySrc none
        = some (bannerLevel severity)) := by
  refine ⟨?_, ?_, ?_⟩
  · intro severity anySrc st h
    by_contra hc
    push_neg at hc
    obtain ⟨h1, h2⟩ := hc
    subst h1
    simp [handleShowWarningBanner, h2] at h
  · intro active st
    by_cases ha : active <;> simp [handleShowWarningBanner, ha]
  · intro severity anySrc h
    have hguard : ¬(severity = .NONE ∧ anySrc = false) := by
      rintro ⟨h1, h2⟩
      rcases h with h | h
      · exact h h1
      · subst h2; cases h
    simp [handleShowWarningBanner, hguard, displayGraduatedWarning]

/-- Witness for `banner_transitions_qualifying`: a HIGH assessment moves
HIDDEN to SHOWING(red). -/
theorem banner_transitions_qualifying_witness :
    handleShowWarningBanner true .HIGH false none = some (bannerLevel .HIGH) :=
  banner_transitions_qualifying.2.2 .HIGH false (Or.inl (by decide))

/-- C2: every completed assessment pass produces
`unifiedScore = clamp(Σ normalizedScore_i × weight_i, 0, 1)` over exactly
the sources evaluated in that pass, with the fixed per-source weights
(PhishTank 0.30, Safe Browsing 0.30, VirusTotal 0.30, URL heuristic 0.40,
content heuristic 0.25); the content-heuristic term is present only when
page text was provided.  The hypothesis on `aiResult` states that it is a
possible output of `analyzeUrlLocally`, which returns score 0 whenever it
reports an error. -/
theorem unifiedScore_clamped_weighted_sum
    (active : Bool) (oracles : ClientOracles) (storage : Storage) (now : ℤ)
    (url : String) (textContent : Option String) (d : ThreatDetails)
    (hai : oracles.aiResult.error = none ∨ oracles.aiResult.score.getD 0 = 0)
    (hrun : (checkUrlThreats active oracles storage now url textContent).1 = some d) :
    (API_WEIGHTS_PHISHTANK = 30/100 ∧ API_WEIGHTS_SAFE_BROWSING = 30/100 ∧
     API_WEIGHTS_VIRUSTOTAL = 30/100 ∧ API_WEIGHTS_AI_ENGINE = 40/100 ∧
     API_WEIGHTS_NLP_CONTENT = 25/100) ∧
    d.unifiedScore = clamp01
      (normalizeScore "AI_ENGINE" (some d.aiEngineResult) * API_WEIGHTS_AI_ENGINE +
       normalizeScore "PHISHTANK" (some d.phishtankResult) * API_WEIGHTS_PHISHTANK +
       normalizeScore "SAFE_BROWSING" (some d.safeBrowsingResult) *
         API_WEIGHTS_SAFE_BROWSING +
       normalizeScore "VIRUSTOTAL" (some d.virusTotalResult) * API_WEIGHTS_VIRUSTOTAL +
       (if jsTruthyStr textContent then
          normalizeScore "NLP_CONTENT" (some d.nlpContentResult) *
            API_WEIGHTS_NLP_CONTENT
        else 0)) := by
  refine ⟨⟨rfl, rfl, rfl, rfl, rfl⟩, ?_⟩
  have hAI : normalizeScore "AI_ENGINE" (some oracles.aiResult) =
      oracles.aiResult.score.getD 0 := by
    rcases hai with h | h
    · simp [normalizeScore, h, jsTruthyStr]
    · simp [normalizeScore, h]
  simp only [checkUrlThreats] at hrun
  split at hrun
  · simp at hrun
  split at hrun
  · simp at hrun
  repeat' split at hrun
  all_goals
    simp only [Option.some.injEq] at hrun
    subst hrun
    simp only [clamp01, hAI]
    first
      | (rw [if_pos (show jsTruthyStr textContent = true from by assumption)]
         try ring_nf)
      | (rw [if_neg (show ¬jsTruthyStr textContent = true from by simp_all)]
         try ring_nf)

/-- Oracles for the `unifiedScore_clamped_weighted_sum` witness: URL
heuristic 0.5 and a positive Safe Browsing verdict. -/
def c2WitnessOracles : ClientOracles :=
  { aiResult := { score := some (1/2) },
    safeBrowsingResult := { isMalicious := true },
    virusTotalNet := {} }

/-- The assessment the witness pass produces: 0.5·0.40 + 1·0.30 = 0.5, LOW. -/
def c2WitnessDetails : ThreatDetails :=
  { url := "https://a.example/login",
    unifiedScore := 1/2,
    severity := .LOW,
    anySourceReportedThreat := true,
    aiEngineResult := { score := some (1/2) },
    phishtankResult :=
      { error := some "Bulk feed check not implemented / API key missing or placeholder" },
    safeBrowsingResult := { isMalicious := true },
    virusTotalResult := vtNotConfigured,
    nlpContentResult := nlpNotRun }

unseal Rat.mul Rat.add Rat.inv Rat.sub in
/-- Witness for `unifiedScore_clamped_weighted_sum` on a concrete pass. -/
theorem unifiedScore_clamped_weighted_sum_witness :
    c2WitnessDetails.unifiedScore = clamp01
      (normalizeScore "AI_ENGINE" (some c2WitnessDetails.aiEngineResult) *
         API_WEIGHTS_AI_ENGINE +
       normalizeScore "PHISHTANK" (some c2WitnessDetails.phishtankResult) *
         API_WEIGHTS_PHISHTANK +
       normalizeScore "SAFE_BROWSING" (some c2WitnessDetails.safeBrowsingResult) *
         API_WEIGHTS_SAFE_BROWSING +
       normalizeScore "VIRUSTOTAL" (some c2WitnessDetails.virusTotalResult) *
         API_WEIGHTS_VIRUSTOTAL +
       (if jsTruthyStr none then
          normalizeScore "NLP_CONTENT" (some c2WitnessDetails.nlpContentResult) *
            API_WEIGHTS_NLP_CONTENT
        else 0)) :=
  (unifiedScore_clamped_weighted_sum true c2WitnessOracles emptyStorage 0
    "https://a.example/login" none c2WitnessDetails (Or.inl rfl) (by decide)).2

/-- The C8 scenario page text: the sentence from the spec padded past the
100-character minimum with neutral filler. -/
def c8PageText : String :=
  "URGENT! verify your account now or it will be suspended and some more padding text about nothing in particular"

set_option maxRecDepth 8000 in
set_option maxHeartbeats 2000000 in
unseal Rat.mul Rat.add Rat.inv Rat.sub in
/-- C8: on the padded scenario text, `analyzePageContentLocally` matches only
the `account_verification` category (weighted score 0.15 × 0.4 = 0.06); the
`urgency` category does not match, because the alternative `urgent!` inside
`\b(...)\b` can never match when followed by a space — the trailing `\b`
fails between `!` and a non-word character. -/
theorem analyzePageContent_c8_missing_urgency :
    (jsTrim c8PageText).length = 110 ∧
    analyzePageContentLocally c8PageText =
      { score := 3/50,
        details :=
          { matchedCategories :=
              [("account_verification",
                { count := 1, keywords := ["verify your account"],
                  categoryScore := 3/20, weightedScore := 3/50 })],
            totalMatches := 1, reason := none },
        error := none } := by
  decide

/-- The placeholder guard always fires: `checkVirusTotal` is the constant
`vtNotConfigured`, whatever the network would have returned. -/
lemma checkVirusTotal_const (net : ApiResult) (url : String) :
    checkVirusTotal net url = vtNotConfigured := by
  simp [checkVirusTotal, VIRUSTOTAL_API_KEY]

/-- PhishTank cache keys never collide with VirusTotal cache keys. -/
lemma mkCacheKey_pt_ne_vt (a b : String) :
    mkCacheKey "phishtank" a ≠ mkCacheKey "virustotal" b := by
  intro h
  have h2 := congrArg String.data h
  simp only [mkCacheKey, CACHE_PREFIX, String.data_append] at h2
  simp at h2

/-- Safe Browsing cache keys never collide with VirusTotal cache keys. -/
lemma mkCacheKey_sb_ne_vt (a b : String) :
    mkCacheKey "safebrowsing" a ≠ mkCacheKey "virustotal" b := by
  intro h
  have h2 := congrArg String.data h
  simp only [mkCacheKey, CACHE_PREFIX, String.data_append] at h2
  simp at h2

/-- A cache read never creates entries: an absent key stays absent. -/
lemma getCachedResponse_snd_none {α : Type} (store : CacheMap α) (now : ℤ)
    (src item k : String) (h : store k = none) :
    (getCachedResponse store now src item).2 k = none := by
  unfold getCachedResponse
  rcases hm : store (mkCacheKey src item) with _ | e
  · simpa [hm] using h
  · simp only [hm]
    split
    · exact h
    · simp [h]

/-- A cache read of an absent key misses. -/
lemma getCachedResponse_fst_none {α : Type} (store : CacheMap α) (now : ℤ)
    (src item : String) (h : store (mkCacheKey src item) = none) :
    (getCachedResponse store now src item).1 = none := by
  simp [getCachedResponse, h]

/-- The `cachedFetch` leaves a key absent when it is not the written key or when
the client result carries an error (which is then not cached). -/
lemma cachedFetch_snd_none (cache : CacheMap ApiResult) (now : ℤ)
    (srcKey url : String) (client : ApiResult) (ttl : ℤ) (k : String)
    (h : cache k = none)
    (hk : k ≠ mkCacheKey srcKey url ∨ jsTruthyStr client.error = true) :
    (cachedFetch cache now srcKey url client ttl).2 k = none := by
  unfold cachedFetch
  rcases hm : getCachedResponse cache now srcKey url with ⟨r, c⟩
  have hc : c k = none := by
    have := getCachedResponse_snd_none cache now srcKey url k h
    rw [hm] at this
    exact this
  rcases r with _ | r
  · simp only []
    split
    · exact hc
    · rcases hk with hk | hk
      · simp [setCachedResponse, hk, hc]
      · simp_all
  · exact hc

/-- On a cache miss `cachedFetch` uses the client result. -/
lemma cachedFetch_fst_miss (cache : CacheMap ApiResult) (now : ℤ)
    (srcKey url : String) (client : ApiResult) (ttl : ℤ)
    (h : cache (mkCacheKey srcKey url) = none) :
    (cachedFetch cache now srcKey url client ttl).1 = client := by
  have h1 := getCachedResponse_fst_none cache now srcKey url h
  unfold cachedFetch
  rcases hm : getCachedResponse cache now srcKey url with ⟨r, c⟩
  rw [hm] at h1
  simp at h1
  subst h1
  simp

/-- One pass of `checkUrlThreats` on a storage with no VirusTotal cache
entries leaves the storage without VirusTotal cache entries, and any
assessment it produces records the not-configured VirusTotal result. -/
lemma checkUrlThreats_vt_pass
    (active : Bool) (oracles : ClientOracles) (storage : Storage) (now : ℤ)
    (url : String) (text : Option String)
    (hinv : ∀ k, storage.cache (mkCacheKey "virustotal" k) = none) :
    (∀ k, ((checkUrlThreats active oracles storage now url text).2).cache
        (mkCacheKey "virustotal" k) = none) ∧
    (∀ d, (checkUrlThreats active oracles storage now url text).1 = some d →
      d.virusTotalResult = vtNotConfigured) := by
  simp only [checkUrlThreats]
  split
  · exact ⟨fun k => hinv k, by simp⟩
  split
  · exact ⟨fun k => hinv k, by simp⟩
  rcases h1 : cachedFetch storage.cache now "phishtank" url (checkPhishTank url)
      TTL_PHISHTANK with ⟨r1, c1⟩
  have hc1 : ∀ k, c1 (mkCacheKey "virustotal" k) = none := by
    intro k
    have := cachedFetch_snd_none storage.cache now "phishtank" url
      (checkPhishTank url) TTL_PHISHTANK (mkCacheKey "virustotal" k) (hinv k)
      (Or.inl (mkCacheKey_pt_ne_vt url k).symm)
    rw [h1] at this
    exact this
  rcases h2 : cachedFetch c1 now "safebrowsing" url oracles.safeBrowsingResult
      TTL_SAFE_BROWSING with ⟨r2, c2⟩
  have hc2 : ∀ k, c2 (mkCacheKey "virustotal" k) = none := by
    intro k
    have := cachedFetch_snd_none c1 now "safebrowsing" url
      oracles.safeBrowsingResult TTL_SAFE_BROWSING (mkCacheKey "virustotal" k)
      (hc1 k) (Or.inl (mkCacheKey_sb_ne_vt url k).symm)
    rw [h2] at this
    exact this
  rcases h3 : cachedFetch c2 now "virustotal" url
      (checkVirusTotal oracles.virusTotalNet url) TTL_VIRUSTOTAL with ⟨r3, c3⟩
  have hr3 : r3 = vtNotConfigured := by
    have := cachedFetch_fst_miss c2 now "virustotal" url
      (checkVirusTotal oracles.virusTotalNet url) TTL_VIRUSTOTAL (hc2 url)
    rw [h3] at this
    simp at this
    rw [this, checkVirusTotal_const]
  have hc3 : ∀ k, c3 (mkCacheKey "virustotal" k) = none := by
    intro k
    have := cachedFetch_snd_none c2 now "virustotal" url
      (checkVirusTotal oracles.virusTotalNet url) TTL_VIRUSTOTAL
      (mkCacheKey "virustotal" k) (hc2 k)
      (Or.inr (by rw [checkVirusTotal_const]; decide))
    rw [h3] at this
    exact this
  constructor
  · intro k
    split <;> exact hc3 k
  · intro d hd
    split at hd <;>
      (simp only [Option.some.injEq] at hd; subst hd; exact hr3)

/-- One inbound "check this URL" request: the inputs of one
`checkUrlThreats` pass. -/
structure PassInput where
  active : Bool
  oracles : ClientOracles
  now : ℤ
  url : String
  textContent : Option String

/-- A sequence of assessment passes sharing `chrome.storage.local`, as the
service worker performs them one per navigation or page-content event. -/
def runPasses (storage : Storage) : List PassInput → List (Option ThreatDetails) × Storage
  | [] => ([], storage)
  | p :: ps =>
    let r := checkUrlThreats p.active p.oracles storage p.now p.url p.textContent
    let rest := runPasses r.2 ps
    (r.1 :: rest.1, rest.2)

/-- C10: `checkVirusTotal` short-circuits on its placeholder guard for every
URL, returning the not-configured error result independently of the network
(no request is issued in the model: the result does not depend on the
network oracle); that result normalizes to score 0; and in every assessment
pass of any run started without VirusTotal cache entries, the recorded
VirusTotal source result is the not-configured one, contributing exactly 0
to the unified score. -/
theorem virusTotal_never_contributes :
    (∀ (net : ApiResult) (url : String),
      checkVirusTotal net url = vtNotConfigured) ∧
    (∀ (net net2 : ApiResult) (url : String),
      checkVirusTotal net url = checkVirusTotal net2 url) ∧
    normalizeScore "VIRUSTOTAL" (some vtNotConfigured) = 0 ∧
    (∀ (storage : Storage) (passes : List PassInput),
      (∀ k, storage.cache (mkCacheKey "virustotal" k) = none) →
      ∀ od ∈ (runPasses storage passes).1, ∀ d, od = some d →
        d.virusTotalResult = vtNotConfigured ∧
        normalizeScore "VIRUSTOTAL" (some d.virusTotalResult) = 0) := by
  refine ⟨checkVirusTotal_const,
    fun net net2 url => by rw [checkVirusTotal_const, checkVirusTotal_const],
    by decide, ?_⟩
  intro storage passes
  induction passes generalizing storage with
  | nil =>
    intro _ od hod
    simp [runPasses] at hod
  | cons p ps ih =>
    intro hinv od hod d hd
    simp only [runPasses, List.mem_cons] at hod
    rcases hod with hod | hod
    · subst hod
      have hvt := (checkUrlThreats_vt_pass p.active p.oracles storage p.now p.url
        p.textContent hinv).2 d hd
      exact ⟨hvt, by rw [hvt]; decide⟩
    · exact ih (checkUrlThreats p.active p.oracles storage p.now p.url
          p.textContent).2
        (checkUrlThreats_vt_pass p.active p.oracles storage p.now p.url
          p.textContent hinv).1 od hod d hd

/-- Oracles for the C10 witness: the VirusTotal network path would even have
claimed a full positive verdict, which the pass never sees. -/
def c10Oracles : ClientOracles :=
  { aiResult := { score := some 0 },
    safeBrowsingResult := {},
    virusTotalNet := { isMalicious := true, score := some 1 } }

/-- Empty storage for the C10 witness. -/
def c10Storage : Storage := { cache := fun _ => none, scamShieldBlacklist := [] }

/-- The single pass of the C10 witness run. -/
def c10Pass : PassInput :=
  { active := true, oracles := c10Oracles, now := 0,
    url := "https://a.example/", textContent := none }

/-- The assessment the C10 witness pass produces. -/
def c10Details : ThreatDetails :=
  { url := "https://a.example/",
    unifiedScore := 0,
    severity := .NONE,
    anySourceReportedThreat := false,
    aiEngineResult := { score := some 0 },
    phishtankResult :=
      { error := some "Bulk feed check not implemented / API key missing or placeholder" },
    safeBrowsingResult := {},
    virusTotalResult := vtNotConfigured,
    nlpContentResult := nlpNotRun }

unseal Rat.mul Rat.add Rat.inv Rat.sub in
/-- Witness for `virusTotal_never_contributes` on a concrete one-pass run. -/
theorem virusTotal_never_contributes_witness :
    c10Details.virusTotalResult = vtNotConfigured :=
  (virusTotal_never_contributes.2.2.2 c10Storage [c10Pass] (fun _ => rfl)
    (some c10Details) (by decide) c10Details rfl).1

end ScamShield
